import Mathlib

/-!
Verification development for the RTK-GNSS correction pipeline
(package gpsrtkpmtk: the rtkI2C movement-sensor facade, the NTRIP
connect / getStream logic, the correction relay loop, and the
virtual-base (VRS) session of the rtkSerial variant).

Float64 values that the code only ever compares against 0 or tests
for NaN are modelled by the type GeoVal: either NaN or an exact
rational. No floating-point arithmetic occurs in the modelled code,
only equality-with-zero and NaN tests, so this embedding is faithful.
Go errors are modelled by GoError; a nil error is Option.none.
Go pointers that may be nil are modelled by Option.
-/

namespace GpsRtk

/-- A float64 quantity as used by the GPS code: NaN or an exact rational.
The modelled code never does arithmetic on these values; it only compares
them with 0 and tests them for NaN. -/
inductive GeoVal where
  | nan : GeoVal
  | val (q : ℚ) : GeoVal
deriving DecidableEq

/-- A geo.Point: latitude and longitude (golang-geo point). -/
structure GeoPoint where
  lat : GeoVal
  lng : GeoVal
deriving DecidableEq

/-- A Go error value. context.Canceled is distinguished because Close
tests errors.Is(err, context.Canceled). -/
inductive GoError where
  | canceled : GoError
  | msg (s : String) : GoError
deriving DecidableEq

/-- The point geo.NewPoint(math.NaN(), math.NaN()) returned by Position
on error paths. -/
def nanPoint : GeoPoint := ⟨GeoVal.nan, GeoVal.nan⟩

/-- The zero point (0, 0). -/
def zeroPoint : GeoPoint := ⟨GeoVal.val 0, GeoVal.val 0⟩

/-- Modelled from the spec: movementsensor.LastPosition.IsZeroPosition
(the rtkutils cache helpers are not under src/). The spec calls a fix
degenerate when it is the zero point (0°,0°). NaN == 0 is false, as in
Go float comparison. -/
def IsZeroPosition (p : GeoPoint) : Bool :=
  p.lat == GeoVal.val 0 && p.lng == GeoVal.val 0

/-- Modelled from the spec: movementsensor.LastPosition.IsPositionNaN
(not under src/): true when the point has NaN in either coordinate. -/
def IsPositionNaN (p : GeoPoint) : Bool :=
  p.lat == GeoVal.nan || p.lng == GeoVal.nan

/-- The mutable state of an rtkI2C sensor that the facade reads:
the sticky LastError slot (modelled from the spec: a slot keeping the
single latest fatal error, Get returns it, nil when never set), the
LastPositionCache (modelled from the spec: the last stored point or
empty if never set), and the NTRIP client and stream references. -/
structure RtkState where
  lastError : Option GoError
  lastposition : Option GeoPoint
  client : Option Nat
  stream : Option Nat
deriving DecidableEq

/-- A (position pointer, altitude, error) triple as returned by
Position of the underlying NMEA sensor and by the facade. -/
structure PositionResult where
  pos : Option GeoPoint
  alt : GeoVal
  err : Option GoError
deriving DecidableEq

/-- An r3.Vector (all components float64); zero value has all
components 0. Also models spatialmath.AngularVelocity. -/
structure Vec3 where
  x : GeoVal
  y : GeoVal
  z : GeoVal
deriving DecidableEq

/-- The zero r3.Vector. -/
def Vec3.zero : Vec3 := ⟨GeoVal.val 0, GeoVal.val 0, GeoVal.val 0⟩

/-- Modelled from the spec: the orientation sentinel returned by
spatialmath.NewZeroOrientation (not under src/): the identity
orientation (orientation vector +z, theta 0). -/
structure OrientationVal where
  ox : GeoVal
  oy : GeoVal
  oz : GeoVal
  theta : GeoVal
deriving DecidableEq

/-- The zero orientation value. -/
def zeroOrientation : OrientationVal :=
  ⟨GeoVal.val 0, GeoVal.val 0, GeoVal.val 1, GeoVal.val 0⟩

/-- Modelled from the spec: movementsensor.Properties (not under src/);
the empty value has every capability flag false. -/
structure Properties where
  positionSupported : Bool
  linearVelocitySupported : Bool
  angularVelocitySupported : Bool
  linearAccelerationSupported : Bool
  compassHeadingSupported : Bool
  orientationSupported : Bool
deriving DecidableEq

/-- The empty movementsensor.Properties value. -/
def Properties.empty : Properties := ⟨false, false, false, false, false, false⟩

namespace rtkI2C

/-- Embedding of rtkI2C.Position (gpsrtkpmtk.go lines 510-540).
The delegate call g.nmeamovementsensor.Position is abstracted as the
argument sensor. The result is none exactly when the Go code would
dereference a nil position pointer (delegate returns nil position with
nil error, making IsPositionNaN(nil) panic); otherwise some of the
returned triple together with the facade state after the call. -/
def Position (st : RtkState) (sensor : PositionResult) :
    Option (PositionResult × RtkState) :=
  match st.lastError with
  | some lastError =>
    match st.lastposition with
    | some lastPosition => some (⟨some lastPosition, GeoVal.val 0, none⟩, st)
    | none => some (⟨some nanPoint, GeoVal.nan, some lastError⟩, st)
  | none =>
    match sensor.err with
    | some err =>
      match sensor.pos with
      | some p =>
        if IsZeroPosition p || IsPositionNaN p then
          match st.lastposition with
          | some lastPosition => some (⟨some lastPosition, sensor.alt, none⟩, st)
          | none => some (⟨some nanPoint, GeoVal.nan, some err⟩, st)
        else some (⟨some nanPoint, GeoVal.nan, some err⟩, st)
      | none => some (⟨some nanPoint, GeoVal.nan, some err⟩, st)
    | none =>
      match sensor.pos with
      | none => none
      | some p =>
        if IsPositionNaN p then some (⟨st.lastposition, sensor.alt, none⟩, st)
        else some (⟨some p, sensor.alt, none⟩, st)

/-- Embedding of rtkI2C.LinearVelocity (lines 543-553): if LastError is
set return the zero vector and that error, otherwise pass the delegate
result through. -/
def LinearVelocity (st : RtkState) (delegate : Vec3 × Option GoError) :
    Vec3 × Option GoError :=
  match st.lastError with
  | some lastError => (Vec3.zero, some lastError)
  | none => delegate

/-- Embedding of rtkI2C.AngularVelocity (lines 565-575). -/
def AngularVelocity (st : RtkState) (delegate : Vec3 × Option GoError) :
    Vec3 × Option GoError :=
  match st.lastError with
  | some lastError => (Vec3.zero, some lastError)
  | none => delegate

/-- Embedding of rtkI2C.CompassHeading (lines 578-588). -/
def CompassHeading (st : RtkState) (delegate : GeoVal × Option GoError) :
    GeoVal × Option GoError :=
  match st.lastError with
  | some lastError => (GeoVal.val 0, some lastError)
  | none => delegate

/-- Embedding of rtkI2C.Orientation (lines 591-601). -/
def Orientation (st : RtkState) (delegate : OrientationVal × Option GoError) :
    OrientationVal × Option GoError :=
  match st.lastError with
  | some lastError => (zeroOrientation, some lastError)
  | none => delegate

/-- Embedding of rtkI2C.Properties (lines 629-636). -/
def Props (st : RtkState) (delegate : Properties × Option GoError) :
    Properties × Option GoError :=
  match st.lastError with
  | some lastError => (Properties.empty, some lastError)
  | none => delegate

/-- Embedding of rtkI2C.Accuracy (lines 639-646): the zero value is the
empty map[string]float32. -/
def Accuracy (st : RtkState) (delegate : List (String × GeoVal) × Option GoError) :
    List (String × GeoVal) × Option GoError :=
  match st.lastError with
  | some lastError => ([], some lastError)
  | none => delegate

end rtkI2C

/-- The concrete point (40.7, -73.98) used by the repository tests. -/
def testPoint : GeoPoint := ⟨GeoVal.val (407/10), GeoVal.val (-7398/100)⟩

/-- Char-list prefix test, used to embed strings.HasPrefix. -/
def listPrefixOf : List Char → List Char → Bool
  | [], _ => true
  | _ :: _, [] => false
  | a :: as, b :: bs => a == b && listPrefixOf as bs

/-- Char-list substring test, used to embed strings.Contains. -/
def listSubstrOf (pat : List Char) : List Char → Bool
  | [] => listPrefixOf pat []
  | c :: rest => listPrefixOf pat (c :: rest) || listSubstrOf pat rest

/-- Embedding of strings.Contains(s, pat). -/
def strContains (s pat : String) : Bool := listSubstrOf pat.toList s.toList

/-- Embedding of strings.HasPrefix(s, pre). -/
def strStartsWith (s pre : String) : Bool := listPrefixOf pre.toList s.toList

/-- The Error() string of a GoError; context.Canceled prints the usual
message. -/
def GoError.text : GoError → String
  | .canceled => "context canceled"
  | .msg s => s

namespace rtkI2C

/-- Embedding of the attempt loop of rtkI2C.connect (lines 295-310),
from a given attempt index with the given number of attempts remaining.
newClient gives the outcome of ntrip.NewClient per attempt (some c =
constructed client, none = error). On the first successful attempt the
client is stored and g.err.Get() is returned; when attempts run out the
fixed connect error is returned. -/
def connectFrom (st : RtkState) (newClient : Nat → Option Nat)
    (maxAttempts : Nat) : Nat → Nat → Option GoError × RtkState
  | _, 0 =>
    (some (GoError.msg ("Cant connect to NTRIP caster after " ++
      toString maxAttempts ++ " attempts")), st)
  | attempt, fuel+1 =>
    match newClient attempt with
    | some c => (st.lastError, {st with client := some c})
    | none => connectFrom st newClient maxAttempts (attempt+1) fuel

/-- Embedding of rtkI2C.connect (lines 295-310). Returns the Go return
value and the state after the call. -/
def connect (st : RtkState) (newClient : Nat → Option Nat)
    (maxAttempts : Nat) : Option GoError × RtkState :=
  connectFrom st newClient maxAttempts 0 maxAttempts

/-- Outcome of the retry loop inside rtkI2C.getStream: either the
cancellation branch fired, or the loop ended with the final values of
the rc and err locals. -/
inductive StreamLoopOut where
  | canceledOut
  | done (rc : Option Nat) (err : Option GoError)
deriving DecidableEq

/-- Embedding of the retry loop of rtkI2C.getStream (lines 322-338):
getS gives per attempt the (stream, error) pair returned by
Client.GetStream; cancelled says whether the cancel context is done
when iteration i checks it; rc and err carry the Go local variables,
both nil initially. -/
def getStreamLoop (getS : Nat → Option Nat × Option GoError)
    (cancelled : Nat → Bool) :
    Option Nat → Option GoError → Nat → Nat → StreamLoopOut
  | rc, err, _, 0 => .done rc err
  | _, _, attempt, fuel+1 =>
    if cancelled attempt then .canceledOut
    else
      match getS attempt with
      | (rc2, none) => .done rc2 none
      | (rc2, some e) =>
        getStreamLoop getS cancelled rc2 (some e) (attempt+1) fuel

/-- Embedding of rtkI2C.getStream (lines 313-356): after the loop, an
error whose text contains ICY is only logged and the stream field is
still assigned, with g.err.Get() as the return value; any other error
is returned as is. Returns the Go return value and the state after the
call. -/
def getStream (st : RtkState) (getS : Nat → Option Nat × Option GoError)
    (cancelled : Nat → Bool) (maxAttempts : Nat) :
    Option GoError × RtkState :=
  match getStreamLoop getS cancelled none none 0 maxAttempts with
  | .canceledOut => (some (GoError.msg "Canceled"), st)
  | .done rc err =>
    match err with
    | some e =>
      if strContains e.text "ICY" then (st.lastError, {st with stream := rc})
      else (some e, st)
    | none => (st.lastError, {st with stream := rc})

/-- What one iteration of the relay cycle of rtkI2C.receiveAndWriteI2C
(lines 443-506) does: ret e means the goroutine called g.err.Set with
value e and returned; contOk means the iteration completed normally and
the loop continues with the same scanner; contRebuilt means the
reconnect path reopened the stream, rebuilt the scanner and continued;
exitSilent means ntripStatus was left false and the loop exits without
any call to g.err.Set. -/
inductive RelayIter where
  | ret (e : Option GoError)
  | contOk
  | contRebuilt
  | exitSilent
deriving DecidableEq

/-- Embedding of one iteration of the relay cycle (lines 443-506).
prevErr is the value of the local variable err at the top of the
iteration (the cancellation branch calls g.err.Set(err) on it); openRes
is the bus.OpenHandle outcome; (msg, scanErr) is the pair returned by
scanner.NextMessage; reconnectRes, readRes and writeRes are the
outcomes of getStream, Stream.Read and handle.Write inside the
msg == nil reconnect path; closeRes is the handle.Close outcome. -/
def relayIterate (prevErr : Option GoError) (cancelled : Bool)
    (openRes : Option GoError) (msg : Option Nat) (scanErr : Option GoError)
    (reconnectRes : Option GoError) (readRes : Except GoError Nat)
    (writeRes : Option GoError) (closeRes : Option GoError) : RelayIter :=
  if cancelled then .ret prevErr
  else
    match openRes with
    | some e => .ret (some e)
    | none =>
      match scanErr with
      | some _ =>
        match msg with
        | none =>
          match reconnectRes with
          | some e2 => .ret (some e2)
          | none =>
            match readRes with
            | .error e3 => .ret (some e3)
            | .ok _ =>
              match writeRes with
              | some e4 => .ret (some e4)
              | none => .contRebuilt
        | some _ =>
          match closeRes with
          | some e5 => .ret (some e5)
          | none => .exitSilent
      | none =>
        match closeRes with
        | some e5 => .ret (some e5)
        | none => .contOk

/-- Inputs to rtkI2C.Close (lines 672-712) from the environment: the
outcome of closing the NMEA sensor; whether a correction writer is
present and, if so, the outcome of closing it; whether the NTRIP client
is present; whether a stream is present and the outcome of closing it;
and the terminal error of the relay task as read by g.err.Get() after
the wait. -/
structure CloseEnv where
  nmeaCloseRes : Option GoError
  writerClose : Option (Option GoError)
  clientPresent : Bool
  streamClose : Option (Option GoError)
  terminalErr : Option GoError
deriving DecidableEq

/-- Result of rtkI2C.Close: the returned error, whether the call
reached activeBackgroundWorkers.Wait (that is, waited for the relay
task to exit), and whether cancelFunc was called. -/
structure CloseResult where
  retErr : Option GoError
  waited : Bool
  cancelCalled : Bool
deriving DecidableEq

/-- Embedding of rtkI2C.Close (lines 672-712): cancelFunc is called
first; a failure closing the NMEA sensor, the correction writer or the
stream returns that error immediately without waiting; otherwise the
call waits for the relay task and returns its terminal error unless
that error is context.Canceled. -/
def Close (env : CloseEnv) : CloseResult :=
  match env.nmeaCloseRes with
  | some e => ⟨some e, false, true⟩
  | none =>
    match env.writerClose with
    | some (some e) => ⟨some e, false, true⟩
    | _ =>
      match env.streamClose with
      | some (some e) => ⟨some e, false, true⟩
      | _ =>
        match env.terminalErr with
        | some e =>
          if e == GoError.canceled then ⟨none, true, true⟩
          else ⟨some e, true, true⟩
        | none => ⟨none, true, true⟩

end rtkI2C

/-- A bufio.ReadWriter value: possibly nil Reader and Writer fields. -/
structure ReadWriterVal where
  reader : Option Nat
  writer : Option Nat
deriving DecidableEq

/-- State of the rtkSerial VRS session: the isConnected flag, the rw
field, and the ghost flag saw200 recording whether an HTTP/1.1 response
line containing 200 OK has been observed on the current connection. -/
structure VrsState where
  isConnected : Bool
  rw : Option ReadWriterVal
  saw200 : Bool
deriving DecidableEq

/-- One ReadLine outcome in the sendGGAMessage handshake loop. -/
inductive ReadRes where
  | eofR
  | errR (e : GoError)
  | lineR (s : String)
deriving DecidableEq

/-- Result of the handshake read loop of rtkSerial.sendGGAMessage:
proceed means the loop broke out and execution continues; fail means
the method returned (nil, err) from inside the loop, carrying the
returned error; panicked models the nil-pointer dereference Go performs
when rw itself is nil. -/
inductive HandshakeOut where
  | proceed (st : VrsState)
  | fail (st : VrsState) (e : Option GoError)
  | panicked
deriving DecidableEq

namespace rtkSerial

/-- Embedding of rtkSerial.connectToVirtualBase (lines 776-825): dialOk,
writeOk and flushOk are the outcomes of net.Dial, rw.Write and rw.Flush.
Returns the returned ReadWriter (nil on failure) and the state after
the call. The function never assigns the rw field of the receiver (the
caller does) and never reads from the connection, so after a successful
dial the ghost saw200 is false: nothing has been observed on the fresh
connection. -/
def connectToVirtualBase (st : VrsState) (dialOk writeOk flushOk : Bool) :
    Option ReadWriterVal × VrsState :=
  if !dialOk then (none, {st with isConnected := false})
  else if !writeOk then (none, {st with isConnected := false, saw200 := false})
  else if !flushOk then (none, {st with isConnected := false, saw200 := false})
  else (some ⟨some 0, some 0⟩, {st with isConnected := true, saw200 := false})

/-- Embedding of the handshake read loop of rtkSerial.sendGGAMessage
(lines 722-749): reads lines until one starts with the HTTP status-line
prefix; requires that line to contain 200 OK to set isConnected and
break; EOF resets rw and isConnected and returns the error; a bad
status line clears isConnected and returns (with the stale nil error
value, as the code does). fuel bounds the number of reads; none means
the loop would keep reading past the bound. -/
def handshakeLoop (lines : Nat → ReadRes) (st : VrsState) :
    Nat → Nat → Option HandshakeOut
  | _, 0 => none
  | idx, fuel+1 =>
    match st.rw with
    | none => some .panicked
    | some rw =>
      if rw.reader.isNone || rw.writer.isNone then some (.proceed st)
      else
        match lines idx with
        | .eofR =>
          some (.fail {st with rw := none, isConnected := false}
            (some (GoError.msg "EOF")))
        | .errR e => some (.fail st (some e))
        | .lineR s =>
          if strStartsWith s "HTTP/1.1 " then
            if strContains s "200 OK" then
              some (.proceed {st with isConnected := true, saw200 := true})
            else some (.fail {st with isConnected := false} none)
          else handshakeLoop lines st (idx+1) fuel

/-- Environment of one sendGGAMessage call: outcomes of the conditional
connectToVirtualBase call, the ReadLine results, the getGGAMessage
call, and the final WriteString and Flush. -/
structure GgaEnv where
  dialOk : Bool
  writeOk : Bool
  flushOk : Bool
  lines : Nat → ReadRes
  ggaRes : Except GoError String
  writeStrOk : Bool
  flushOk2 : Bool

/-- Embedding of rtkSerial.sendGGAMessage (lines 716-774). Result none
models a panic or an unbounded read loop; otherwise the returned
ReadWriter (nil on error) and the state after the call. -/
def sendGGAMessage (st0 : VrsState) (env : GgaEnv) (fuel : Nat) :
    Option (Option ReadWriterVal × VrsState) :=
  let st1 :=
    if !st0.isConnected then
      let r := connectToVirtualBase st0 env.dialOk env.writeOk env.flushOk
      {r.2 with rw := r.1}
    else st0
  match handshakeLoop env.lines st1 0 fuel with
  | none => none
  | some .panicked => none
  | some (.fail st2 _) => some (none, st2)
  | some (.proceed st2) =>
    match env.ggaRes with
    | .error _ => some (none, st2)
    | .ok _ =>
      if !env.writeStrOk then some (none, st2)
      else if !env.flushOk2 then some (none, st2)
      else some (st2.rw, st2)

end rtkSerial

end GpsRtk

open GpsRtk

/-- Claim C1 counterexample: with no latched LastError and the valid
point (40.7, -73.98) cached, a sensor fix of exactly (0, 0) with
altitude 0 and no error makes Position return the zero point itself
with altitude 0 — not the cached point. The zero point is not
substituted in the error-free path. -/
theorem c1_counterexample :
    rtkI2C.Position ⟨none, some testPoint, none, none⟩
        ⟨some zeroPoint, GeoVal.val 0, none⟩ =
      some (⟨some zeroPoint, GeoVal.val 0, none⟩,
        ⟨none, some testPoint, none, none⟩) ∧
    zeroPoint ≠ testPoint := by
  refine ⟨rfl, ?_⟩
  simp only [zeroPoint, testPoint, ne_eq, GeoPoint.mk.injEq, GeoVal.val.injEq]
  norm_num

/-- Claim C1 amended: with no latched LastError, a sensor fix of
exactly (0, 0) with altitude 0 and no error is returned as is —
Position passes the zero fix through regardless of any cached point,
since in the error-free path only NaN positions are substituted — and
LinearVelocity passes the sensor value through unchanged. -/
theorem c1_zero_fix_passthrough (st : RtkState) (h : st.lastError = none)
    (v : Vec3 × Option GoError) :
    rtkI2C.Position st ⟨some zeroPoint, GeoVal.val 0, none⟩ =
      some (⟨some zeroPoint, GeoVal.val 0, none⟩, st) ∧
    rtkI2C.LinearVelocity st v = v := by
  constructor
  · simp [rtkI2C.Position, h, IsPositionNaN, zeroPoint]
  · simp [rtkI2C.LinearVelocity, h]

/-- Claim C1 amended, witness at a concrete state with a cached point. -/
theorem c1_witness :
    rtkI2C.Position ⟨none, some testPoint, none, some 4⟩
        ⟨some zeroPoint, GeoVal.val 0, none⟩ =
      some (⟨some zeroPoint, GeoVal.val 0, none⟩,
        ⟨none, some testPoint, none, some 4⟩) ∧
    rtkI2C.LinearVelocity ⟨none, some testPoint, none, some 4⟩
        (Vec3.zero, none) = (Vec3.zero, none) :=
  c1_zero_fix_passthrough ⟨none, some testPoint, none, some 4⟩ rfl
    (Vec3.zero, none)

/-- Claim C3: once LastError is set, every facade read operation
short-circuits without delegating to the underlying sensor (the
delegate results are arbitrary and do not influence the output) and
returns that error with the zero or sentinel value for its quantity;
Position instead returns the cached last-good point with altitude 0 and
no error when such a point exists, and the NaN point with the error
otherwise. -/
theorem c3_lasterror_short_circuit (st : RtkState) (e : GoError)
    (h : st.lastError = some e) (sensor : PositionResult)
    (dv da : Vec3 × Option GoError) (dc : GeoVal × Option GoError)
    (dor : OrientationVal × Option GoError)
    (dp : Properties × Option GoError)
    (dacc : List (String × GeoVal) × Option GoError) :
    (∀ p, st.lastposition = some p →
      rtkI2C.Position st sensor = some (⟨some p, GeoVal.val 0, none⟩, st)) ∧
    (st.lastposition = none →
      rtkI2C.Position st sensor = some (⟨some nanPoint, GeoVal.nan, some e⟩, st)) ∧
    rtkI2C.LinearVelocity st dv = (Vec3.zero, some e) ∧
    rtkI2C.AngularVelocity st da = (Vec3.zero, some e) ∧
    rtkI2C.Orientation st dor = (zeroOrientation, some e) ∧
    rtkI2C.CompassHeading st dc = (GeoVal.val 0, some e) ∧
    rtkI2C.Props st dp = (Properties.empty, some e) ∧
    rtkI2C.Accuracy st dacc = ([], some e) := by
  refine ⟨?_, ?_, ?_, ?_, ?_, ?_, ?_, ?_⟩
  · intro p hp; simp [rtkI2C.Position, h, hp]
  · intro hp; simp [rtkI2C.Position, h, hp]
  · simp [rtkI2C.LinearVelocity, h]
  · simp [rtkI2C.AngularVelocity, h]
  · simp [rtkI2C.Orientation, h]
  · simp [rtkI2C.CompassHeading, h]
  · simp [rtkI2C.Props, h]
  · simp [rtkI2C.Accuracy, h]

/-- Claim C3, witness at a concrete latched state with a cached point:
every facade read returns the latched error and its sentinel without
consulting the delegate, and Position returns the cached point with
altitude 0 and no error. -/
theorem c3_witness :
    rtkI2C.Position ⟨some (GoError.msg "caster down"), some testPoint, none, none⟩
        ⟨some zeroPoint, GeoVal.val 3, none⟩ =
      some (⟨some testPoint, GeoVal.val 0, none⟩,
        ⟨some (GoError.msg "caster down"), some testPoint, none, none⟩) ∧
    rtkI2C.LinearVelocity ⟨some (GoError.msg "caster down"), some testPoint, none, none⟩
        (⟨GeoVal.val 1, GeoVal.val 2, GeoVal.val 3⟩, none) =
      (Vec3.zero, some (GoError.msg "caster down")) ∧
    rtkI2C.AngularVelocity ⟨some (GoError.msg "caster down"), some testPoint, none, none⟩
        (⟨GeoVal.val 4, GeoVal.val 5, GeoVal.val 6⟩, none) =
      (Vec3.zero, some (GoError.msg "caster down")) ∧
    rtkI2C.Orientation ⟨some (GoError.msg "caster down"), some testPoint, none, none⟩
        (⟨GeoVal.val 1, GeoVal.val 1, GeoVal.val 1, GeoVal.val 1⟩, none) =
      (zeroOrientation, some (GoError.msg "caster down")) ∧
    rtkI2C.CompassHeading ⟨some (GoError.msg "caster down"), some testPoint, none, none⟩
        (GeoVal.val 90, none) =
      (GeoVal.val 0, some (GoError.msg "caster down")) ∧
    rtkI2C.Props ⟨some (GoError.msg "caster down"), some testPoint, none, none⟩
        (⟨true, true, true, true, true, true⟩, none) =
      (Properties.empty, some (GoError.msg "caster down")) ∧
    rtkI2C.Accuracy ⟨some (GoError.msg "caster down"), some testPoint, none, none⟩
        ([("hDOP", GeoVal.val 1)], none) =
      ([], some (GoError.msg "caster down")) := by
  have h := c3_lasterror_short_circuit
    ⟨some (GoError.msg "caster down"), some testPoint, none, none⟩
    (GoError.msg "caster down") rfl ⟨some zeroPoint, GeoVal.val 3, none⟩
    (⟨GeoVal.val 1, GeoVal.val 2, GeoVal.val 3⟩, none)
    (⟨GeoVal.val 4, GeoVal.val 5, GeoVal.val 6⟩, none)
    (GeoVal.val 90, none)
    (⟨GeoVal.val 1, GeoVal.val 1, GeoVal.val 1, GeoVal.val 1⟩, none)
    (⟨true, true, true, true, true, true⟩, none)
    ([("hDOP", GeoVal.val 1)], none)
  exact ⟨h.1 testPoint rfl, h.2.2.1, h.2.2.2.1, h.2.2.2.2.1,
    h.2.2.2.2.2.1, h.2.2.2.2.2.2.1, h.2.2.2.2.2.2.2⟩

/-- Claim C4 counterexample: with no latched LastError and an empty
cache, a normal fix (40.7, -73.98) at altitude 50.5 is returned exactly,
but the facade state after the call is unchanged: the LastPositionCache
is still empty. Position never stores the fresh point. -/
theorem c4_counterexample :
    rtkI2C.Position ⟨none, none, none, none⟩
        ⟨some testPoint, GeoVal.val (101/2), none⟩ =
      some (⟨some testPoint, GeoVal.val (101/2), none⟩,
        ⟨none, none, none, none⟩) := by
  rfl

/-- Claim C4 amended: with no latched LastError, a normal fix
(40.7, -73.98) at altitude 50.5 with no error is returned exactly, and
the facade state — the LastPositionCache included — is left unchanged:
Position does not cache the fresh point. -/
theorem c4_normal_fix_returned (st : RtkState) (h : st.lastError = none) :
    rtkI2C.Position st ⟨some testPoint, GeoVal.val (101/2), none⟩ =
      some (⟨some testPoint, GeoVal.val (101/2), none⟩, st) := by
  simp [rtkI2C.Position, h, IsPositionNaN, testPoint]

/-- Claim C4 amended, witness at a concrete state with a stale cached
zero point, showing the cache is neither consulted nor overwritten. -/
theorem c4_witness :
    rtkI2C.Position ⟨none, some zeroPoint, some 1, none⟩
        ⟨some testPoint, GeoVal.val (101/2), none⟩ =
      some (⟨some testPoint, GeoVal.val (101/2), none⟩,
        ⟨none, some zeroPoint, some 1, none⟩) :=
  c4_normal_fix_returned ⟨none, some zeroPoint, some 1, none⟩ rfl

/-- Claim C5: with no latched LastError and the valid point
(40.7, -73.98) cached, a sensor fix of (NaN, NaN) with NaN altitude and
no error makes Position return the cached point as the position and the
NaN altitude preserved from the sensor report. -/
theorem c5_nan_fix_fallback :
    rtkI2C.Position ⟨none, some testPoint, none, none⟩
        ⟨some nanPoint, GeoVal.nan, none⟩ =
      some (⟨some testPoint, GeoVal.nan, none⟩,
        ⟨none, some testPoint, none, none⟩) := by
  rfl

/-- Claim C9: with no latched LastError, when the delegate returns a
non-nil error together with a non-nil position that is the zero point
or has NaN in either coordinate, and a cached last-good point exists,
Position returns the cached point with the reported altitude and a nil
error — the sensor error is suppressed. -/
theorem c9_error_with_degenerate_fix (st : RtkState) (lp p : GeoPoint)
    (e : GoError) (alt : GeoVal) (h1 : st.lastError = none)
    (h2 : st.lastposition = some lp)
    (h3 : (IsZeroPosition p || IsPositionNaN p) = true) :
    rtkI2C.Position st ⟨some p, alt, some e⟩ =
      some (⟨some lp, alt, none⟩, st) := by
  simp [rtkI2C.Position, h1, h2, h3]

/-- Claim C9, witness: a zero-point fix with altitude 7 and a sensor
error, with (40.7, -73.98) cached, yields the cached point, altitude 7
and no error. -/
theorem c9_witness :
    rtkI2C.Position ⟨none, some testPoint, none, none⟩
        ⟨some zeroPoint, GeoVal.val 7, some (GoError.msg "fix lost")⟩ =
      some (⟨some testPoint, GeoVal.val 7, none⟩,
        ⟨none, some testPoint, none, none⟩) :=
  c9_error_with_degenerate_fix ⟨none, some testPoint, none, none⟩
    testPoint zeroPoint (GoError.msg "fix lost") (GeoVal.val 7)
    rfl rfl (by decide)

/-- Claim C2 counterexample: a scanner read error that comes with a
non-nil partial message is not treated as claimed: with the handle
close succeeding, the iteration ends as exitSilent — ntripStatus is
left false, the loop exits and the task terminates without any call to
g.err.Set, so LastError is never set for this read error. -/
theorem c2_counterexample :
    rtkI2C.relayIterate none false none (some 5)
        (some (GoError.msg "bad frame")) none (Except.ok 0) none none =
      rtkI2C.RelayIter.exitSilent ∧
    ¬ ∃ e, rtkI2C.relayIterate none false none (some 5)
        (some (GoError.msg "bad frame")) none (Except.ok 0) none none =
      rtkI2C.RelayIter.ret e := by
  refine ⟨rfl, ?_⟩
  rintro ⟨e, h⟩
  simp [rtkI2C.relayIterate] at h

/-- Claim C2 amended: in an uncancelled iteration of the relay cycle
with the handle opening successfully, a scanner failure with no message
re-invokes getStream; when the reconnect sequence (getStream, initial
stream read, transport write) succeeds the scanner is rebuilt and the
loop continues, while a failure of any step of that sequence sets
LastError and terminates. A scanner error that yields a partial message
leaves ntripStatus false so the loop exits, silently when the final
handle close succeeds and with LastError set only when that close
fails; a handle-open failure sets LastError and terminates. -/
theorem c2_relay_iteration
    (prevErr reconnectRes writeRes closeRes : Option GoError)
    (msg : Option Nat) (m k : Nat) (e e2 e3 e4 e5 : GoError)
    (readRes : Except GoError Nat) :
    (rtkI2C.relayIterate prevErr false none none (some e) none
        (Except.ok k) none closeRes = rtkI2C.RelayIter.contRebuilt) ∧
    (rtkI2C.relayIterate prevErr false none none (some e) (some e2)
        readRes writeRes closeRes = rtkI2C.RelayIter.ret (some e2)) ∧
    (rtkI2C.relayIterate prevErr false none none (some e) none
        (Except.error e3) writeRes closeRes = rtkI2C.RelayIter.ret (some e3)) ∧
    (rtkI2C.relayIterate prevErr false none none (some e) none
        (Except.ok k) (some e4) closeRes = rtkI2C.RelayIter.ret (some e4)) ∧
    (rtkI2C.relayIterate prevErr false none (some m) (some e) reconnectRes
        readRes writeRes none = rtkI2C.RelayIter.exitSilent) ∧
    (rtkI2C.relayIterate prevErr false none (some m) (some e) reconnectRes
        readRes writeRes (some e5) = rtkI2C.RelayIter.ret (some e5)) ∧
    (rtkI2C.relayIterate prevErr false (some e2) msg (some e) reconnectRes
        readRes writeRes closeRes = rtkI2C.RelayIter.ret (some e2)) :=
  ⟨rfl, rfl, rfl, rfl, rfl, rfl, rfl⟩

/-- Claim C7: when the attempt loop of getStream ends with an error,
an error whose text contains ICY is treated as success — the stream
field is assigned the loop result and the call returns the LastError
slot, not that error — while any other error is propagated and the
state is untouched. -/
theorem c7_icy_tolerated (st : RtkState)
    (getS : Nat → Option Nat × Option GoError) (cancelled : Nat → Bool)
    (maxAttempts : Nat) (rc : Option Nat) (e : GoError)
    (hloop : rtkI2C.getStreamLoop getS cancelled none none 0 maxAttempts =
      rtkI2C.StreamLoopOut.done rc (some e)) :
    (strContains e.text "ICY" = true →
      rtkI2C.getStream st getS cancelled maxAttempts =
        (st.lastError, {st with stream := rc})) ∧
    (strContains e.text "ICY" = false →
      rtkI2C.getStream st getS cancelled maxAttempts = (some e, st)) := by
  unfold rtkI2C.getStream
  rw [hloop]
  constructor
  · intro hicy; simp [hicy]
  · intro hicy; simp [hicy]

/-- Claim C7, witness: a single attempt failing with an ICY handshake
error leaves the stream field assigned (here to the nil result of the
failed attempt) and returns the latched LastError value instead of the
ICY error. -/
theorem c7_witness :
    rtkI2C.getStream ⟨some (GoError.msg "latched"), none, none, some 99⟩
        (fun _ => (none, some (GoError.msg "ICY old protocol")))
        (fun _ => false) 1 =
      (some (GoError.msg "latched"),
        ⟨some (GoError.msg "latched"), none, none, none⟩) :=
  (c7_icy_tolerated ⟨some (GoError.msg "latched"), none, none, some 99⟩
    (fun _ => (none, some (GoError.msg "ICY old protocol")))
    (fun _ => false) 1 none (GoError.msg "ICY old protocol")
    (by decide)).1 (by decide)

/-- Helper for claim C10: the attempt loop of connect, run from any
start index, returns the latched LastError value and stores a client as
soon as some attempt within the remaining budget succeeds. -/
theorem connectFrom_success (st : RtkState) (newClient : Nat → Option Nat)
    (maxAttempts : Nat) : ∀ fuel start : Nat,
    (∃ k, k < fuel ∧ (newClient (start + k)).isSome = true) →
    (rtkI2C.connectFrom st newClient maxAttempts start fuel).1 = st.lastError ∧
    (rtkI2C.connectFrom st newClient maxAttempts start fuel).2.client.isSome = true := by
  intro fuel
  induction fuel with
  | zero =>
    rintro start ⟨k, hk, _⟩
    exact absurd hk (Nat.not_lt_zero k)
  | succ n ih =>
    rintro start ⟨k, hk, hsome⟩
    cases hnc : newClient start with
    | some c => simp [rtkI2C.connectFrom, hnc]
    | none =>
      have hnext : ∃ k2, k2 < n ∧ (newClient (start + 1 + k2)).isSome = true := by
        cases k with
        | zero =>
          rw [Nat.add_zero, hnc] at hsome
          simp at hsome
        | succ k2 =>
          refine ⟨k2, Nat.lt_of_succ_lt_succ hk, ?_⟩
          have harith : start + 1 + k2 = start + (k2 + 1) := by omega
          rw [harith]
          exact hsome
      simpa [rtkI2C.connectFrom, hnc] using ih (start + 1) hnext

/-- Claim C10: whenever some attempt within the budget successfully
constructs the NTRIP client, connect stores the client and returns the
current value of the LastError slot rather than unconditionally
succeeding — in particular a fatal error latched before the call is
returned even though the client was stored. -/
theorem c10_connect_returns_latched (st : RtkState)
    (newClient : Nat → Option Nat) (maxAttempts : Nat)
    (h : ∃ i, i < maxAttempts ∧ (newClient i).isSome = true) :
    (rtkI2C.connect st newClient maxAttempts).1 = st.lastError ∧
    (rtkI2C.connect st newClient maxAttempts).2.client.isSome = true := by
  unfold rtkI2C.connect
  refine connectFrom_success st newClient maxAttempts maxAttempts 0 ?_
  obtain ⟨i, hi, hsome⟩ := h
  exact ⟨i, hi, by rw [Nat.zero_add]; exact hsome⟩

/-- Claim C10, witness: with the error latched before the call and
every attempt succeeding, connect returns the latched error and the
client slot is filled. -/
theorem c10_witness :
    (rtkI2C.connect ⟨some (GoError.msg "latched"), none, none, none⟩
        (fun _ => some 7) 3).1 = some (GoError.msg "latched") ∧
    (rtkI2C.connect ⟨some (GoError.msg "latched"), none, none, none⟩
        (fun _ => some 7) 3).2.client.isSome = true :=
  c10_connect_returns_latched ⟨some (GoError.msg "latched"), none, none, none⟩
    (fun _ => some 7) 3 ⟨0, by decide, by decide⟩

/-- Claim C8 counterexample: when closing the underlying NMEA sensor
fails, Close returns that error immediately: it does not wait for the
relay task to exit and does not return the relay terminal error (nil
here), contradicting the claim that every call waits and returns the
terminal error. -/
theorem c8_counterexample :
    rtkI2C.Close ⟨some (GoError.msg "nmea close failed"), none, false, none, none⟩ =
      ⟨some (GoError.msg "nmea close failed"), false, true⟩ := by
  rfl

/-- Claim C8 amended: Close always cancels the relay context first;
provided closing the NMEA sensor, the correction writer and the stream
all succeed, it waits for the relay task to fully exit and returns the
relay terminal error, except that a terminal error equal to context
cancellation is not reported — Close then returns no error. -/
theorem c8_close_terminal_error (env : rtkI2C.CloseEnv)
    (h1 : env.nmeaCloseRes = none)
    (h2 : env.writerClose = none ∨ env.writerClose = some none)
    (h3 : env.streamClose = none ∨ env.streamClose = some none) :
    (rtkI2C.Close env).cancelCalled = true ∧
    (rtkI2C.Close env).waited = true ∧
    (rtkI2C.Close env).retErr =
      (if env.terminalErr = some GoError.canceled then none
       else env.terminalErr) := by
  rcases henv : env.terminalErr with _ | e
  · rcases h2 with h2 | h2 <;> rcases h3 with h3 | h3 <;>
      simp [rtkI2C.Close, h1, h2, h3, henv]
  · by_cases he : e = GoError.canceled <;>
      rcases h2 with h2 | h2 <;> rcases h3 with h3 | h3 <;>
      simp [rtkI2C.Close, h1, h2, h3, henv, he]

/-- Claim C8 amended, witness: clean intermediate closes, a non-cancel
terminal error: Close cancels, waits and returns that terminal error. -/
theorem c8_witness :
    (rtkI2C.Close ⟨none, some none, true, some none,
        some (GoError.msg "fatal")⟩).cancelCalled = true ∧
    (rtkI2C.Close ⟨none, some none, true, some none,
        some (GoError.msg "fatal")⟩).waited = true ∧
    (rtkI2C.Close ⟨none, some none, true, some none,
        some (GoError.msg "fatal")⟩).retErr = some (GoError.msg "fatal") := by
  have h := c8_close_terminal_error
    ⟨none, some none, true, some none, some (GoError.msg "fatal")⟩
    rfl (Or.inr rfl) (Or.inr rfl)
  exact ⟨h.1, h.2.1, h.2.2.trans (by decide)⟩

/-- Claim C6 counterexample: a fully successful connectToVirtualBase
call (dial, header write and flush all succeed) leaves the session with
isConnected true although no HTTP 200 OK line has been observed on the
fresh connection, and the rw field of the receiver has not even been
assigned by the function. -/
theorem c6_counterexample :
    (rtkSerial.connectToVirtualBase ⟨false, none, false⟩ true true true).2.isConnected = true ∧
    (rtkSerial.connectToVirtualBase ⟨false, none, false⟩ true true true).2.saw200 = false ∧
    (rtkSerial.connectToVirtualBase ⟨false, none, false⟩ true true true).2.rw = none := by
  refine ⟨rfl, rfl, rfl⟩

/-- Claim C6 amended: the invariant holds for the handshake read loop
of sendGGAMessage but not for connectToVirtualBase: whenever the loop
sets isConnected (it returns proceed with isConnected true from a state
where it was false), the 200 OK line has been observed, the rw field is
unchanged, and its reader and writer are both non-nil; by contrast
connectToVirtualBase sets isConnected true immediately after sending
the request headers, before any response byte is read. -/
theorem c6_handshake_invariant (lines : Nat → ReadRes)
    (st st2 : VrsState) (idx fuel : Nat)
    (hrun : rtkSerial.handshakeLoop lines st idx fuel =
      some (HandshakeOut.proceed st2))
    (hconn : st.isConnected = false) (hconn2 : st2.isConnected = true) :
    st2.saw200 = true ∧ st2.rw = st.rw ∧
    (st2.rw.map fun rw => rw.reader.isSome && rw.writer.isSome) = some true := by
  induction fuel generalizing idx with
  | zero => simp [rtkSerial.handshakeLoop] at hrun
  | succ n ih =>
    unfold rtkSerial.handshakeLoop at hrun
    split at hrun
    · simp at hrun
    · rename_i rw heq
      split at hrun
      · simp only [Option.some.injEq, HandshakeOut.proceed.injEq] at hrun
        rw [← hrun, hconn] at hconn2
        exact absurd hconn2 (by simp)
      · rename_i hnotnil
        split at hrun
        · simp at hrun
        · simp at hrun
        · rename_i s
          split at hrun
          · split at hrun
            · simp only [Option.some.injEq, HandshakeOut.proceed.injEq] at hrun
              subst hrun
              refine ⟨rfl, rfl, ?_⟩
              rw [heq]
              rcases hr : rw.reader with _ | r
              · rw [hr] at hnotnil; simp at hnotnil
              · rcases hw : rw.writer with _ | w
                · rw [hw] at hnotnil; simp at hnotnil
                · simp [hr, hw]
            · simp at hrun
          · exact ih (idx + 1) hrun

/-- Claim C6 amended, witness: a handshake loop that reads the line
HTTP/1.1 200 OK from a disconnected state with a live ReadWriter sets
isConnected with the 200 OK observed and the ReadWriter intact. -/
theorem c6_witness :
    (⟨true, some ⟨some 1, some 2⟩, true⟩ : VrsState).saw200 = true ∧
    (⟨true, some ⟨some 1, some 2⟩, true⟩ : VrsState).rw =
      (⟨false, some ⟨some 1, some 2⟩, false⟩ : VrsState).rw ∧
    ((⟨true, some ⟨some 1, some 2⟩, true⟩ : VrsState).rw.map
      fun rw => rw.reader.isSome && rw.writer.isSome) = some true :=
  c6_handshake_invariant
    (fun i => if i == 0 then ReadRes.lineR "HTTP/1.1 200 OK" else ReadRes.eofR)
    ⟨false, some ⟨some 1, some 2⟩, false⟩ ⟨true, some ⟨some 1, some 2⟩, true⟩
    0 1 (by decide) rfl rfl
